import Mathlib

/-!
Verification of the BudgetAI backend aggregation logic
(`backend/server.py`): the budget consumption calculator
(`calculate_spent`), the analytics aggregator (`get_analytics`), the
dashboard summary (`get_dashboard`), and the mutating budget/transaction
endpoints.

Modelling conventions:

* The MongoDB collections `db.transactions` and `db.budgets` are modelled
  as Lean lists of records (structure `DB`).  An aggregation pipeline
  `$match` stage is a `List.filter`, a `$group`/`$sum` stage is
  `groupSum` (one entry per distinct key, carrying the sum of `amount`
  over the matching documents; MongoDB leaves the group order
  unspecified, here it is the order produced by `List.dedup`), and a
  `$sort` stage is `List.insertionSort` by the sort key (a stable sort,
  matching Python's `sorted`; MongoDB leaves the order of ties
  unspecified).  `to_list(n)` on a cursor is `List.take n`.
* Monetary amounts (Python floats holding decimal amounts) are modelled
  as exact rationals `ℚ`.
* Date strings are compared exactly as MongoDB compares strings:
  lexicographically (`lexLeChars` on the character list; for the ASCII
  dates involved, codepoint order and UTF-8 byte order agree).  The
  anchored regular expression `^month` of the source (whose
  `month` argument is a plain `YYYY-MM` string, containing no
  metacharacters) is a string prefix test, `strStartsWith`.
  `{'$substr': ['$date', 0, 7]}` is `strTake · 7`.
* `result[0]['total'] if result else 0` after a `$group` over the
  matched documents equals the sum over the matched list, because the
  sum of the empty list is `0`.
* Fallible handlers return `Except String α` (the `detail` string of the
  raised `HTTPException`) paired with the post-call store; read-only
  handlers are pure functions of the store.
-/

/-! ### Lexicographic string comparison, prefix test, substring -/

/-- Lexicographic comparison of character lists, the order MongoDB uses
when it compares the ASCII date strings of this application. -/
def lexLeChars : List Char → List Char → Bool
  | [], _ => true
  | _ :: _, [] => false
  | a :: as, b :: bs =>
    if a < b then true
    else if b < a then false
    else lexLeChars as bs

/-- Lexicographic order on strings (as a proposition). -/
def strLe (a b : String) : Prop := lexLeChars a.data b.data = true

instance : DecidableRel strLe := fun a b =>
  inferInstanceAs (Decidable (lexLeChars a.data b.data = true))

/-- Boolean lexicographic order on strings, used inside `$match` filters. -/
def strLeb (a b : String) : Bool := lexLeChars a.data b.data

/-- Test that `p` is a prefix of the character list `c`. -/
def charsStartWith : List Char → List Char → Bool
  | [], _ => true
  | _ :: _, [] => false
  | p :: ps, c :: cs => if p = c then charsStartWith ps cs else false

/-- The anchored regex `^pre` applied to `s`: `s` starts with `pre`. -/
def strStartsWith (s pre : String) : Bool := charsStartWith pre.data s.data

/-- The first `n` characters of `s` (`$substr` on the ASCII dates used here). -/
def strTake (s : String) (n : Nat) : String := String.mk (s.data.take n)

theorem lexLeChars_total : ∀ a b : List Char,
    lexLeChars a b = true ∨ lexLeChars b a = true := by
  intro a
  induction a with
  | nil => intro b; left; rfl
  | cons x xs ih =>
    intro b
    cases b with
    | nil => right; rfl
    | cons y ys =>
      simp only [lexLeChars]
      rcases lt_trichotomy x y with h | h | h
      · simp [h, not_lt.mpr h.le]
      · subst h
        simpa [lt_irrefl] using ih ys
      · simp [h, not_lt.mpr h.le]

theorem lexLeChars_trans : ∀ a b c : List Char,
    lexLeChars a b = true → lexLeChars b c = true → lexLeChars a c = true := by
  intro a
  induction a with
  | nil => intro b c h1 h2; rfl
  | cons x xs ih =>
    intro b c h1 h2
    cases b with
    | nil => simp [lexLeChars] at h1
    | cons y ys =>
      cases c with
      | nil => simp [lexLeChars] at h2
      | cons z zs =>
        simp only [lexLeChars] at h1 h2 ⊢
        by_cases hxy : x < y
        · by_cases hyz : y < z
          · simp [lt_trans hxy hyz]
          · by_cases hzy : z < y
            · simp [hyz, hzy] at h2
            · have hyez : y = z := le_antisymm (not_lt.mp hzy) (not_lt.mp hyz)
              subst hyez
              simp [hxy]
        · by_cases hyx : y < x
          · simp [hxy, hyx] at h1
          · have hxey : x = y := le_antisymm (not_lt.mp hyx) (not_lt.mp hxy)
            subst hxey
            simp only [lt_irrefl, if_false] at h1
            by_cases hxz : x < z
            · simp [hxz]
            · by_cases hzx : z < x
              · simp [hxz, hzx] at h2
              · have hxez : x = z := le_antisymm (not_lt.mp hzx) (not_lt.mp hxz)
                subst hxez
                simp only [lt_irrefl, if_false] at h2 ⊢
                exact ih ys zs h1 h2

theorem strLe_total (a b : String) : strLe a b ∨ strLe b a :=
  lexLeChars_total a.data b.data

theorem strLe_trans {a b c : String} (h1 : strLe a b) (h2 : strLe b c) : strLe a c :=
  lexLeChars_trans a.data b.data c.data h1 h2

/-! ### Data model -/

/-- A document of the `transactions` collection (`TransactionResponse`
fields of the source; `amount` is a decimal modelled as `ℚ`). -/
structure Transaction where
  id : String
  user_id : String
  type : String
  amount : ℚ
  category : String
  description : Option String
  date : String
  notes : Option String
  created_at : String
deriving DecidableEq

/-- A document of the `budgets` collection. -/
structure Budget where
  id : String
  user_id : String
  category : String
  amount : ℚ
  month : String
deriving DecidableEq

/-- The stored state: the two collections the aggregation logic reads and
the budget/transaction endpoints write. -/
structure DB where
  transactions : List Transaction
  budgets : List Budget
deriving DecidableEq

/-- Sum of the `amount` field over a list of transactions (`$sum: '$amount'`). -/
def sumAmounts (ts : List Transaction) : ℚ := (ts.map Transaction.amount).sum

/-! ### calculate_spent (server.py lines 401-412) -/

/-- The `$match` stage of `calculate_spent`: `user_id`, `category` and
`type: 'expense'` compared by equality, `date` matched by the anchored
regex `^month` (a prefix test). -/
def spentMatches (user_id category month : String) (t : Transaction) : Bool :=
  decide (t.user_id = user_id) && decide (t.category = category)
    && decide (t.type = "expense") && strStartsWith t.date month

/-- `calculate_spent`: sum of `amount` over the matched transactions;
`result[0]['total'] if result else 0` yields the sum, with `0` when the
match is empty. -/
def calculate_spent (ts : List Transaction) (user_id category month : String) : ℚ :=
  sumAmounts (ts.filter (spentMatches user_id category month))

/-! ### get_dashboard (server.py lines 484-527) -/

/-- Sort key of the `recent` query: `.sort('date', -1)`, date descending. -/
def byDateDesc (a b : Transaction) : Prop := strLe b.date a.date

instance : DecidableRel byDateDesc := fun a b =>
  inferInstanceAs (Decidable (lexLeChars b.date.data a.date.data = true))

instance : IsTotal Transaction byDateDesc :=
  ⟨fun a b => strLe_total b.date a.date⟩

instance : IsTrans Transaction byDateDesc :=
  ⟨fun _ _ _ h1 h2 => strLe_trans h2 h1⟩

/-- The JSON object returned by the `/dashboard` endpoint. -/
structure DashboardSummary where
  total_income : ℚ
  total_expenses : ℚ
  balance : ℚ
  total_budget : ℚ
  remaining_budget : ℚ
  budget_used_percent : ℚ
  recent_transactions : List Transaction
  month : String
deriving DecidableEq

/-- `get_dashboard`: income/expense totals for the month (regex prefix
match on `date`), budget total for the month (equality on `month`),
derived balance / remaining budget / percent used, and the five most
recent transactions by date descending. -/
def get_dashboard (db : DB) (user_id month : String) : DashboardSummary :=
  let total_income := sumAmounts (db.transactions.filter (fun t =>
    decide (t.user_id = user_id) && decide (t.type = "income") && strStartsWith t.date month))
  let total_expenses := sumAmounts (db.transactions.filter (fun t =>
    decide (t.user_id = user_id) && decide (t.type = "expense") && strStartsWith t.date month))
  let total_budget := ((db.budgets.filter (fun b =>
    decide (b.user_id = user_id) && decide (b.month = month))).map Budget.amount).sum
  let recent := (List.insertionSort byDateDesc
    (db.transactions.filter (fun t => decide (t.user_id = user_id)))).take 5
  { total_income := total_income
    total_expenses := total_expenses
    balance := total_income - total_expenses
    total_budget := total_budget
    remaining_budget := if 0 < total_budget then total_budget - total_expenses else 0
    budget_used_percent := if 0 < total_budget then total_expenses / total_budget * 100 else 0
    recent_transactions := recent
    month := month }

/-! ### Concrete stores used by scenario conjuncts and witnesses -/

/-- The ledger of the spec scenario: two Food expenses and one Salary
income in 2024-03, all owned by user `"user"`. -/
def exampleLedger : List Transaction :=
  [⟨"t1", "user", "expense", 100, "Food", none, "2024-03-05", none, "c1"⟩,
   ⟨"t2", "user", "expense", 50, "Food", none, "2024-03-20", none, "c2"⟩,
   ⟨"t3", "user", "income", 3000, "Salary", none, "2024-03-01", none, "c3"⟩]

/-- A store whose 2024-03 budget is exactly exhausted by its expenses. -/
def dbExhausted : DB :=
  ⟨[⟨"t1", "u", "expense", 100, "Food", none, "2024-03-05", none, "c1"⟩],
   [⟨"b1", "u", "Food", 100, "2024-03"⟩]⟩

/-- A store with expenses but no budget configured. -/
def dbNoBudget : DB :=
  ⟨[⟨"t1", "u", "expense", 40, "Food", none, "2024-03-05", none, "c1"⟩], []⟩

/-! ### Claim C1 -/

/-- C1: `calculate_spent` returns exactly the sum of `amount` over the
user's expense transactions whose category matches exactly and whose
date starts with the month prefix; appending an income transaction never
changes the result; and on the scenario ledger it returns 150 for
`("user", "Food", "2024-03")`. -/
theorem claim_C1 (ts : List Transaction) (u c m : String) :
    calculate_spent ts u c m =
      ((ts.filter (fun t => decide (t.user_id = u) && decide (t.type = "expense")
          && decide (t.category = c) && strStartsWith t.date m)).map Transaction.amount).sum
    ∧ (∀ (tid uid : String) (a : ℚ) (cat : String) (desc : Option String) (d : String)
          (nts : Option String) (ca : String),
        calculate_spent (ts ++ [⟨tid, uid, "income", a, cat, desc, d, nts, ca⟩]) u c m
          = calculate_spent ts u c m)
    ∧ calculate_spent exampleLedger "user" "Food" "2024-03" = 150 := by
  refine ⟨?_, ?_, ?_⟩
  · unfold calculate_spent sumAmounts
    have hfe : ts.filter (spentMatches u c m)
        = ts.filter (fun t => decide (t.user_id = u) && decide (t.type = "expense")
            && decide (t.category = c) && strStartsWith t.date m) :=
      List.filter_congr (fun t _ => by
        simp [spentMatches, Bool.and_comm, Bool.and_left_comm, Bool.and_assoc])
    rw [hfe]
  · intro tid uid a cat desc d nts ca
    unfold calculate_spent
    rw [List.filter_append]
    have hfalse : spentMatches u c m ⟨tid, uid, "income", a, cat, desc, d, nts, ca⟩ = false := by
      simp [spentMatches]
    simp [hfalse, sumAmounts]
  · have hf : exampleLedger.filter (spentMatches "user" "Food" "2024-03")
        = [⟨"t1", "user", "expense", 100, "Food", none, "2024-03-05", none, "c1"⟩,
           ⟨"t2", "user", "expense", 50, "Food", none, "2024-03-20", none, "c2"⟩] := by
      decide
    unfold calculate_spent sumAmounts
    rw [hf]
    norm_num

/-! ### Claim C5 -/

/-- C5: `calculate_spent` returns the neutral value 0 whenever no
transaction matches the filter, and under the precondition that all
stored amounts are non-negative its result is non-negative. -/
theorem claim_C5 (ts : List Transaction) (u c m : String) :
    ((∀ t ∈ ts, ¬(t.user_id = u ∧ t.category = c ∧ t.type = "expense"
        ∧ strStartsWith t.date m = true)) → calculate_spent ts u c m = 0)
    ∧ ((∀ t ∈ ts, 0 ≤ t.amount) → 0 ≤ calculate_spent ts u c m) := by
  constructor
  · intro h
    unfold calculate_spent sumAmounts
    have hnil : ts.filter (spentMatches u c m) = [] := by
      rw [List.filter_eq_nil_iff]
      intro t ht
      have := h t ht
      simp only [spentMatches, Bool.and_eq_true, decide_eq_true_eq]
      tauto
    rw [hnil]
    rfl
  · intro h
    unfold calculate_spent sumAmounts
    apply List.sum_nonneg
    intro x hx
    obtain ⟨t, ht, rfl⟩ := List.mem_map.mp hx
    exact h t (List.mem_of_mem_filter ht)

/-- Witness for C5: a month string that matches nothing yields 0 (here a
malformed month `"not-a-month"`), and on the scenario ledger the result
is non-negative. -/
theorem claim_C5_witness :
    ((∀ t ∈ exampleLedger, ¬(t.user_id = "user" ∧ t.category = "Food" ∧ t.type = "expense"
        ∧ strStartsWith t.date "not-a-month" = true))
      ∧ calculate_spent exampleLedger "user" "Food" "not-a-month" = 0)
    ∧ ((∀ t ∈ exampleLedger, 0 ≤ t.amount)
      ∧ 0 ≤ calculate_spent exampleLedger "user" "Food" "2024-03") :=
  ⟨⟨by decide, (claim_C5 exampleLedger "user" "Food" "not-a-month").1 (by decide)⟩,
   ⟨by decide, (claim_C5 exampleLedger "user" "Food" "2024-03").2 (by decide)⟩⟩

/-! ### Claim C6 -/

/-- C6: the dashboard summary returns `balance = income − expenses`,
`remaining_budget = total_budget − total_expenses` exactly when
`total_budget > 0` (else 0), and `budget_used_percent =
expenses / budget × 100` exactly when `total_budget > 0` (else 0); in
particular a store with no budget set and a store whose budget is
exactly exhausted both report `remaining_budget = 0`. -/
theorem claim_C6 (db : DB) (u m : String) :
    (get_dashboard db u m).balance
        = (get_dashboard db u m).total_income - (get_dashboard db u m).total_expenses
    ∧ (get_dashboard db u m).remaining_budget
        = (if 0 < (get_dashboard db u m).total_budget
            then (get_dashboard db u m).total_budget - (get_dashboard db u m).total_expenses
            else 0)
    ∧ (get_dashboard db u m).budget_used_percent
        = (if 0 < (get_dashboard db u m).total_budget
            then (get_dashboard db u m).total_expenses / (get_dashboard db u m).total_budget * 100
            else 0)
    ∧ (get_dashboard db u m).total_income
        = sumAmounts (db.transactions.filter (fun t =>
            decide (t.user_id = u) && decide (t.type = "income") && strStartsWith t.date m))
    ∧ (get_dashboard db u m).total_expenses
        = sumAmounts (db.transactions.filter (fun t =>
            decide (t.user_id = u) && decide (t.type = "expense") && strStartsWith t.date m))
    ∧ (get_dashboard db u m).total_budget
        = ((db.budgets.filter (fun b =>
            decide (b.user_id = u) && decide (b.month = m))).map Budget.amount).sum
    ∧ (get_dashboard dbExhausted "u" "2024-03").remaining_budget = 0
    ∧ 0 < (get_dashboard dbExhausted "u" "2024-03").total_budget
    ∧ (get_dashboard dbNoBudget "u" "2024-03").remaining_budget = 0
    ∧ (get_dashboard dbNoBudget "u" "2024-03").total_budget = 0 := by
  have hEi : dbExhausted.transactions.filter (fun t =>
      decide (t.user_id = "u") && decide (t.type = "income") && strStartsWith t.date "2024-03")
      = [] := by decide
  have hEe : dbExhausted.transactions.filter (fun t =>
      decide (t.user_id = "u") && decide (t.type = "expense") && strStartsWith t.date "2024-03")
      = [⟨"t1", "u", "expense", 100, "Food", none, "2024-03-05", none, "c1"⟩] := by decide
  have hEb : dbExhausted.budgets.filter (fun b =>
      decide (b.user_id = "u") && decide (b.month = "2024-03"))
      = [⟨"b1", "u", "Food", 100, "2024-03"⟩] := by decide
  have hNe : dbNoBudget.transactions.filter (fun t =>
      decide (t.user_id = "u") && decide (t.type = "expense") && strStartsWith t.date "2024-03")
      = [⟨"t1", "u", "expense", 40, "Food", none, "2024-03-05", none, "c1"⟩] := by decide
  have hNb : dbNoBudget.budgets.filter (fun b =>
      decide (b.user_id = "u") && decide (b.month = "2024-03")) = [] := by decide
  refine ⟨rfl, rfl, rfl, rfl, rfl, rfl, ?_, ?_, ?_, ?_⟩
  · simp only [get_dashboard, hEe, hEb, sumAmounts]
    norm_num
  · simp only [get_dashboard, hEb]
    norm_num
  · simp only [get_dashboard, hNe, hNb, sumAmounts]
    norm_num
  · simp only [get_dashboard, hNb]
    norm_num

/-! ### get_analytics (server.py lines 529-583) -/

/-- The analytics date-range test: `{'$gte': start_month + '-01', '$lte':
end_month + '-31'}`, an inclusive lexicographic comparison of the raw
date strings. -/
def analyticsDateInRange (s e d : String) : Bool :=
  strLeb (s ++ "-01") d && strLeb d (e ++ "-31")

/-- The `$match` stage of the category-breakdown pipeline. -/
def analyticsMatchExpense (u s e : String) (t : Transaction) : Bool :=
  decide (t.user_id = u) && decide (t.type = "expense") && analyticsDateInRange s e t.date

/-- The `$match` stage of the monthly-trend pipeline (both types). -/
def analyticsMatchAll (u s e : String) (t : Transaction) : Bool :=
  decide (t.user_id = u) && analyticsDateInRange s e t.date

/-- The `month` field added by `$addFields`: the first 7 characters of `date`. -/
def monthOf (t : Transaction) : String := strTake t.date 7

/-- Denotation of `{'$group': {'_id': key, 'total': {'$sum': '$amount'}}}`:
one entry per distinct key with the sum of `amount` over the matching
documents.  MongoDB leaves the order of groups unspecified; this
denotation lists them in `List.dedup` order. -/
def groupSum {κ : Type} [DecidableEq κ] (key : Transaction → κ) (ts : List Transaction) :
    List (κ × ℚ) :=
  ((ts.map key).dedup).map (fun k => (k, sumAmounts (ts.filter (fun t => decide (key t = k)))))

/-- Total carried by the groups with key `k` (zero when absent). -/
def keyTotal {κ : Type} [DecidableEq κ] (gs : List (κ × ℚ)) (k : κ) : ℚ :=
  ((gs.filter (fun g => decide (g.1 = k))).map Prod.snd).sum

/-- Sort key of `{'$sort': {'total': -1}}`: summed amount descending. -/
def byAmountDesc (a b : String × ℚ) : Prop := b.2 ≤ a.2

instance : DecidableRel byAmountDesc := fun a b =>
  inferInstanceAs (Decidable (b.2 ≤ a.2))

instance : IsTotal (String × ℚ) byAmountDesc := ⟨fun a b => le_total b.2 a.2⟩

instance : IsTrans (String × ℚ) byAmountDesc := ⟨fun _ _ _ h1 h2 => le_trans h2 h1⟩

/-- Sort key of `{'$sort': {'_id.month': 1}}`: month ascending. -/
def byMonthKeyAsc (a b : (String × String) × ℚ) : Prop := strLe a.1.1 b.1.1

instance : DecidableRel byMonthKeyAsc := fun a b =>
  inferInstanceAs (Decidable (lexLeChars a.1.1.data b.1.1.data = true))

instance : IsTotal ((String × String) × ℚ) byMonthKeyAsc :=
  ⟨fun a b => strLe_total a.1.1 b.1.1⟩

instance : IsTrans ((String × String) × ℚ) byMonthKeyAsc :=
  ⟨fun _ _ _ h1 h2 => strLe_trans h1 h2⟩

/-- One record of `monthly_trend`: `{'month': m, 'income': i, 'expense': e}`. -/
structure TrendRecord where
  month : String
  income : ℚ
  expense : ℚ
deriving DecidableEq

/-- Sort key of Python's `sorted(months_dict.values(), key=lambda x: x['month'])`. -/
def byMonthAsc (a b : TrendRecord) : Prop := strLe a.month b.month

instance : DecidableRel byMonthAsc := fun a b =>
  inferInstanceAs (Decidable (lexLeChars a.month.data b.month.data = true))

instance : IsTotal TrendRecord byMonthAsc := ⟨fun a b => strLe_total a.month b.month⟩

instance : IsTrans TrendRecord byMonthAsc := ⟨fun _ _ _ h1 h2 => strLe_trans h1 h2⟩

/-- `months_dict[month][type_] = total`: assignment into the per-month
record.  A `type_` outside `income`/`expense` would create an extra
dictionary key in Python; such a key is outside the response model
`{month, income, expense}` and is not representable here, so the record
is returned unchanged. -/
def setTypeField (r : TrendRecord) (ty : String) (q : ℚ) : TrendRecord :=
  if ty = "income" then { r with income := q }
  else if ty = "expense" then { r with expense := q }
  else r

/-- One iteration of the `for item in monthly_data` loop: insert the
month into `months_dict` if absent (Python dicts preserve insertion
order, modelled as an association list), then assign the group total to
the record field named by the group's type. -/
def pivotStep (d : List (String × TrendRecord)) (g : (String × String) × ℚ) :
    List (String × TrendRecord) :=
  (if d.any (fun p => decide (p.1 = g.1.1)) then d else d ++ [(g.1.1, ⟨g.1.1, 0, 0⟩)]).map
    (fun p => if p.1 = g.1.1 then (p.1, setTypeField p.2 g.1.2 g.2) else p)

/-- The whole pivot loop followed by `months_dict.values()`. -/
def pivotMonthly (gs : List ((String × String) × ℚ)) : List TrendRecord :=
  (gs.foldl pivotStep []).map Prod.snd

/-- The `(month, type)` groups of the monthly-trend pipeline. -/
def monthlyGroups (ts : List Transaction) (u s e : String) : List ((String × String) × ℚ) :=
  groupSum (fun t => (monthOf t, t.type)) (ts.filter (analyticsMatchAll u s e))

/-- The `monthly_trend` response: groups sorted ascending by month,
truncated by `.to_list(100)`, pivoted into per-month records, and the
records sorted ascending by month string. -/
def monthly_trend (ts : List Transaction) (u s e : String) : List TrendRecord :=
  List.insertionSort byMonthAsc
    (pivotMonthly ((List.insertionSort byMonthKeyAsc (monthlyGroups ts u s e)).take 100))

/-- The `category_breakdown` response: expense groups by category,
sorted descending by total, truncated by `.to_list(20)`; each group is
returned as a `{category, amount}` pair. -/
def category_breakdown (ts : List Transaction) (u s e : String) : List (String × ℚ) :=
  (List.insertionSort byAmountDesc
    (groupSum Transaction.category (ts.filter (analyticsMatchExpense u s e)))).take 20

/-- The JSON object returned by the `/analytics` endpoint. -/
structure AnalyticsResponse where
  category_breakdown : List (String × ℚ)
  monthly_trend : List TrendRecord
  start_month : String
  end_month : String
deriving DecidableEq

/-- `get_analytics` with explicit month bounds (when omitted the source
fills them from the current clock, outside this model). -/
def get_analytics (db : DB) (u s e : String) : AnalyticsResponse :=
  ⟨category_breakdown db.transactions u s e, monthly_trend db.transactions u s e, s, e⟩

/-! ### Structure lemmas about groups -/

theorem groupSum_map_fst {κ : Type} [DecidableEq κ] (key : Transaction → κ)
    (ts : List Transaction) : (groupSum key ts).map Prod.fst = (ts.map key).dedup := by
  unfold groupSum
  rw [List.map_map]
  show List.map (fun k => k) _ = _
  exact List.map_id _

theorem groupSum_keys_nodup {κ : Type} [DecidableEq κ] (key : Transaction → κ)
    (ts : List Transaction) : ((groupSum key ts).map Prod.fst).Nodup := by
  rw [groupSum_map_fst]
  exact List.nodup_dedup _

theorem mem_groupSum {κ : Type} [DecidableEq κ] {key : Transaction → κ}
    {ts : List Transaction} {p : κ × ℚ} (hp : p ∈ groupSum key ts) :
    p.2 = sumAmounts (ts.filter (fun t => decide (key t = p.1))) ∧ p.1 ∈ ts.map key := by
  unfold groupSum at hp
  obtain ⟨k, hk, rfl⟩ := List.mem_map.mp hp
  exact ⟨rfl, List.mem_dedup.mp hk⟩

/-! ### Claim C2 -/

/-- C2: `category_breakdown` entries are the per-category sums of the
range-filtered expense transactions of the user; the sequence is sorted
descending by summed amount, has length at most 20, lists each category
at most once, and appending an income transaction never changes it. -/
theorem claim_C2 (db : DB) (u s e : String) :
    List.Pairwise (fun a b : String × ℚ => b.2 ≤ a.2)
        ((get_analytics db u s e).category_breakdown)
    ∧ (get_analytics db u s e).category_breakdown.length ≤ 20
    ∧ (∀ p ∈ (get_analytics db u s e).category_breakdown,
        p.2 = sumAmounts ((db.transactions.filter (analyticsMatchExpense u s e)).filter
            (fun t => decide (t.category = p.1)))
          ∧ p.1 ∈ (db.transactions.filter (analyticsMatchExpense u s e)).map
              Transaction.category)
    ∧ ((get_analytics db u s e).category_breakdown.map Prod.fst).Nodup
    ∧ (∀ (tid uid : String) (a : ℚ) (cat : String) (desc : Option String) (d : String)
          (nts : Option String) (ca : String),
        (get_analytics
            (DB.mk (db.transactions ++ [Transaction.mk tid uid "income" a cat desc d nts ca])
              db.budgets) u s e).category_breakdown
          = (get_analytics db u s e).category_breakdown) := by
  have hsorted : List.Pairwise byAmountDesc
      (List.insertionSort byAmountDesc
        (groupSum Transaction.category (db.transactions.filter (analyticsMatchExpense u s e)))) :=
    List.sorted_insertionSort byAmountDesc _
  refine ⟨?_, ?_, ?_, ?_, ?_⟩
  · exact (hsorted.sublist (List.take_sublist 20 _)).imp (fun h => h)
  · show (List.take 20 _).length ≤ 20
    rw [List.length_take]
    exact min_le_left _ _
  · intro p hp
    have hp1 : p ∈ List.insertionSort byAmountDesc
        (groupSum Transaction.category (db.transactions.filter (analyticsMatchExpense u s e))) :=
      (List.take_sublist 20 _).subset hp
    have hp2 : p ∈ groupSum Transaction.category
        (db.transactions.filter (analyticsMatchExpense u s e)) :=
      (List.mem_insertionSort byAmountDesc).mp hp1
    exact mem_groupSum hp2
  · have h1 : ((groupSum Transaction.category
        (db.transactions.filter (analyticsMatchExpense u s e))).map Prod.fst).Nodup :=
      groupSum_keys_nodup _ _
    have h2 : ((List.insertionSort byAmountDesc
        (groupSum Transaction.category
          (db.transactions.filter (analyticsMatchExpense u s e)))).map Prod.fst).Nodup :=
      (((List.perm_insertionSort byAmountDesc _).map Prod.fst).nodup_iff).mpr h1
    exact h2.sublist ((List.take_sublist 20 _).map Prod.fst)
  · intro tid uid a cat desc d nts ca
    have hfalse : analyticsMatchExpense u s e ⟨tid, uid, "income", a, cat, desc, d, nts, ca⟩
        = false := by
      simp [analyticsMatchExpense]
    have hf : (db.transactions ++ [Transaction.mk tid uid "income" a cat desc d nts ca]).filter
        (analyticsMatchExpense u s e) = db.transactions.filter (analyticsMatchExpense u s e) := by
      rw [List.filter_append]
      simp [hfalse]
    show category_breakdown _ u s e = category_breakdown _ u s e
    unfold category_breakdown
    rw [hf]

/-! ### Claim C4 -/

/-- An expense on a short-month date that only exists lexicographically:
`"2024-02-30"` is within `["2024-02-01", "2024-02-31"]` as a raw string. -/
def txShortMonth : Transaction :=
  ⟨"t1", "u", "expense", 77, "Food", none, "2024-02-30", none, "c1"⟩

/-- C4: a transaction passes the analytics `$match` stages (for the
trend: user filter; for the breakdown: user and expense filters) exactly
when `start_month ++ "-01" ≤ date ≤ end_month ++ "-31"` holds under
lexicographic comparison of the raw strings; in particular the
impossible calendar date `"2024-02-30"` passes the February filter and
reaches both outputs. -/
theorem claim_C4 (t : Transaction) (u s e : String) (ts : List Transaction) :
    (analyticsMatchAll u s e t = true ↔
      (t.user_id = u ∧ strLe (s ++ "-01") t.date ∧ strLe t.date (e ++ "-31")))
    ∧ (analyticsMatchExpense u s e t = true ↔
      (t.user_id = u ∧ t.type = "expense" ∧ strLe (s ++ "-01") t.date
        ∧ strLe t.date (e ++ "-31")))
    ∧ (t ∈ ts.filter (analyticsMatchAll u s e) ↔
      (t ∈ ts ∧ t.user_id = u ∧ strLe (s ++ "-01") t.date ∧ strLe t.date (e ++ "-31")))
    ∧ (t ∈ ts.filter (analyticsMatchExpense u s e) ↔
      (t ∈ ts ∧ t.user_id = u ∧ t.type = "expense" ∧ strLe (s ++ "-01") t.date
        ∧ strLe t.date (e ++ "-31")))
    ∧ [txShortMonth].filter (analyticsMatchExpense "u" "2024-02" "2024-02") = [txShortMonth]
    ∧ (category_breakdown [txShortMonth] "u" "2024-02" "2024-02").map Prod.fst = ["Food"]
    ∧ (monthly_trend [txShortMonth] "u" "2024-02" "2024-02").map TrendRecord.month
        = ["2024-02"] := by
  refine ⟨?_, ?_, ?_, ?_, by decide, by decide, by decide⟩
  · simp [analyticsMatchAll, analyticsDateInRange, strLeb, strLe, and_assoc]
  · simp [analyticsMatchExpense, analyticsDateInRange, strLeb, strLe, and_assoc]
  · simp [List.mem_filter, analyticsMatchAll, analyticsDateInRange, strLeb, strLe, and_assoc]
  · simp [List.mem_filter, analyticsMatchExpense, analyticsDateInRange, strLeb, strLe, and_assoc]

/-! ### keyTotal lemmas -/

theorem keyTotal_append_single {κ : Type} [DecidableEq κ] (gs : List (κ × ℚ)) (g : κ × ℚ)
    (k : κ) : keyTotal (gs ++ [g]) k = keyTotal gs k + (if g.1 = k then g.2 else 0) := by
  unfold keyTotal
  rw [List.filter_append, List.map_append, List.sum_append]
  congr 1
  by_cases h : g.1 = k
  · simp [List.filter_cons, h]
  · simp [List.filter_cons, h]

theorem keyTotal_eq_zero {κ : Type} [DecidableEq κ] {gs : List (κ × ℚ)} {k : κ}
    (h : k ∉ gs.map Prod.fst) : keyTotal gs k = 0 := by
  unfold keyTotal
  have hnil : gs.filter (fun g => decide (g.1 = k)) = [] := by
    rw [List.filter_eq_nil_iff]
    intro g hg
    simp only [decide_eq_true_eq]
    intro hk
    exact h (List.mem_map.mpr ⟨g, hg, hk⟩)
  rw [hnil]
  rfl

theorem keyTotal_of_mem_nodup {κ : Type} [DecidableEq κ] {gs : List (κ × ℚ)}
    (hn : (gs.map Prod.fst).Nodup) {k : κ} {q : ℚ} (hp : (k, q) ∈ gs) :
    keyTotal gs k = q := by
  induction gs with
  | nil => cases hp
  | cons g gs ih =>
    rw [List.map_cons, List.nodup_cons] at hn
    rcases List.mem_cons.mp hp with h | h
    · have hg : g = (k, q) := h.symm
      subst hg
      have hrest : gs.filter (fun g => decide (g.1 = k)) = [] := by
        rw [List.filter_eq_nil_iff]
        intro g hg
        simp only [decide_eq_true_eq]
        intro hk
        exact hn.1 (List.mem_map.mpr ⟨g, hg, hk⟩)
      unfold keyTotal
      rw [List.filter_cons]
      simp [hrest]
    · have hk : ¬(g.1 = k) := by
        intro he
        apply hn.1
        rw [he]
        exact List.mem_map.mpr ⟨(k, q), h, rfl⟩
      have step : (g :: gs).filter (fun g => decide (g.1 = k))
          = gs.filter (fun g => decide (g.1 = k)) := by
        rw [List.filter_cons]
        simp [hk]
      unfold keyTotal
      rw [step]
      exact ih hn.2 h

theorem keyTotal_groupSum {κ : Type} [DecidableEq κ] (key : Transaction → κ)
    (ts : List Transaction) (k : κ) :
    keyTotal (groupSum key ts) k = sumAmounts (ts.filter (fun t => decide (key t = k))) := by
  by_cases h : k ∈ ts.map key
  · have hk : k ∈ (ts.map key).dedup := List.mem_dedup.mpr h
    have hmem : (k, sumAmounts (ts.filter (fun t => decide (key t = k)))) ∈ groupSum key ts :=
      List.mem_map.mpr ⟨k, hk, rfl⟩
    exact keyTotal_of_mem_nodup (groupSum_keys_nodup key ts) hmem
  · have h1 : keyTotal (groupSum key ts) k = 0 := by
      apply keyTotal_eq_zero
      rw [groupSum_map_fst]
      simpa [List.mem_dedup] using h
    have h2 : ts.filter (fun t => decide (key t = k)) = [] := by
      rw [List.filter_eq_nil_iff]
      intro t ht
      simp only [decide_eq_true_eq]
      intro hkk
      exact h (List.mem_map.mpr ⟨t, ht, hkk⟩)
    rw [h1, h2]
    rfl

theorem keyTotal_perm {κ : Type} [DecidableEq κ] {gs gs' : List (κ × ℚ)}
    (h : List.Perm gs gs') (k : κ) : keyTotal gs k = keyTotal gs' k := by
  unfold keyTotal
  exact ((h.filter (fun g => decide (g.1 = k))).map Prod.snd).sum_eq

/-! ### Characterization of the pivot loop -/

theorem pivot_foldl_spec : ∀ gs : List ((String × String) × ℚ),
    (gs.map Prod.fst).Nodup →
    ((gs.foldl pivotStep []).map Prod.fst).Nodup
    ∧ (∀ m : String, m ∈ (gs.foldl pivotStep []).map Prod.fst ↔ m ∈ gs.map (fun g => g.1.1))
    ∧ (∀ p ∈ gs.foldl pivotStep [], p.2 = TrendRecord.mk p.1 (keyTotal gs (p.1, "income"))
        (keyTotal gs (p.1, "expense"))) := by
  intro gs
  induction gs using List.reverseRecOn with
  | nil =>
    intro _
    refine ⟨List.nodup_nil, ?_, ?_⟩
    · intro m
      simp
    · intro p hp
      simp at hp
  | append_singleton gs g ih =>
    intro hn
    rw [List.map_append] at hn
    have hn1 : (gs.map Prod.fst).Nodup := hn.of_append_left
    have hg : g.1 ∉ gs.map Prod.fst := by
      have hd := List.disjoint_of_nodup_append hn
      intro hmem
      exact hd hmem (by simp)
    obtain ⟨ihN, ihM, ihC⟩ := ih hn1
    obtain ⟨⟨m0, ty0⟩, q⟩ := g
    rw [List.foldl_append]
    simp only [List.foldl_cons, List.foldl_nil]
    set d := gs.foldl pivotStep [] with hdd
    have kApp : ∀ k : String × String, keyTotal (gs ++ [((m0, ty0), q)]) k
        = keyTotal gs k + (if (m0, ty0) = k then q else 0) :=
      fun k => keyTotal_append_single gs ((m0, ty0), q) k
    have kZero : keyTotal gs (m0, ty0) = 0 := keyTotal_eq_zero hg
    have hmonths : (gs ++ [((m0, ty0), q)]).map (fun g => g.1.1)
        = gs.map (fun g => g.1.1) ++ [m0] := by
      simp
    have hkeys : ∀ dd : List (String × TrendRecord),
        (dd.map (fun p => if p.1 = m0 then (p.1, setTypeField p.2 ty0 q) else p)).map Prod.fst
          = dd.map Prod.fst := by
      intro dd
      rw [List.map_map]
      apply List.map_congr_left
      intro p _
      by_cases h : p.1 = m0 <;> simp [h]
    have hany : (d.any (fun p => decide (p.1 = m0)) = true) ↔ m0 ∈ d.map Prod.fst := by
      simp [List.any_eq_true, List.mem_map]
    by_cases hmem : m0 ∈ d.map Prod.fst
    · have hstep : pivotStep d ((m0, ty0), q)
          = d.map (fun p => if p.1 = m0 then (p.1, setTypeField p.2 ty0 q) else p) := by
        unfold pivotStep
        rw [if_pos (hany.mpr hmem)]
      rw [hstep]
      refine ⟨?_, ?_, ?_⟩
      · rw [hkeys]
        exact ihN
      · intro m
        rw [hkeys, hmonths, List.mem_append]
        constructor
        · intro h
          exact Or.inl ((ihM m).mp h)
        · intro h
          rcases h with h | h
          · exact (ihM m).mpr h
          · have hmm : m = m0 := by simpa using h
            rw [hmm]
            exact hmem
      · intro p hp
        obtain ⟨p0, hp0, hpe⟩ := List.mem_map.mp hp
        have hcontent := ihC p0 hp0
        by_cases hc : p0.1 = m0
        · rw [if_pos hc] at hpe
          subst hpe
          by_cases hty : ty0 = "income"
          · subst hty
            rw [hc] at hcontent
            simp only [kApp, hcontent, hc]
            simp [setTypeField, kZero]
          · by_cases hty2 : ty0 = "expense"
            · subst hty2
              rw [hc] at hcontent
              simp only [kApp, hcontent, hc]
              simp [setTypeField, kZero]
            · rw [hc] at hcontent
              simp only [kApp, hcontent, hc]
              simp [setTypeField, hty, hty2]
        · rw [if_neg hc] at hpe
          subst hpe
          have hne1 : ¬((m0, ty0) = (p0.1, "income")) := by
            intro he
            exact hc (congrArg Prod.fst he).symm
          have hne2 : ¬((m0, ty0) = (p0.1, "expense")) := by
            intro he
            exact hc (congrArg Prod.fst he).symm
          simp [kApp, hne1, hne2, hcontent]
    · have hstep : pivotStep d ((m0, ty0), q)
          = (d ++ [(m0, TrendRecord.mk m0 0 0)]).map
              (fun p => if p.1 = m0 then (p.1, setTypeField p.2 ty0 q) else p) := by
        unfold pivotStep
        rw [if_neg (fun h => hmem (hany.mp h))]
      rw [hstep]
      have hm0gs : m0 ∉ gs.map (fun g => g.1.1) := fun h => hmem ((ihM m0).mpr h)
      have kZeroAll : ∀ ty : String, keyTotal gs (m0, ty) = 0 := by
        intro ty
        apply keyTotal_eq_zero
        intro hk
        apply hm0gs
        obtain ⟨g2, hg2, hge⟩ := List.mem_map.mp hk
        exact List.mem_map.mpr ⟨g2, hg2, by rw [hge]⟩
      refine ⟨?_, ?_, ?_⟩
      · rw [hkeys, List.map_append]
        refine List.nodup_append.mpr ⟨ihN, ?_, ?_⟩
        · simp
        · intro a ha hb
          have hab : a = m0 := by simpa using hb
          rw [hab] at ha
          exact hmem ha
      · intro m
        rw [hkeys, List.map_append, hmonths, List.mem_append, List.mem_append]
        constructor
        · intro h
          rcases h with h | h
          · exact Or.inl ((ihM m).mp h)
          · exact Or.inr (by simpa using h)
        · intro h
          rcases h with h | h
          · exact Or.inl ((ihM m).mpr h)
          · exact Or.inr (by simpa using h)
      · intro p hp
        obtain ⟨p0, hp0, hpe⟩ := List.mem_map.mp hp
        rcases List.mem_append.mp hp0 with hp0d | hp0new
        · have hc : ¬(p0.1 = m0) := by
            intro he
            exact hmem (he ▸ List.mem_map.mpr ⟨p0, hp0d, rfl⟩)
          rw [if_neg hc] at hpe
          subst hpe
          have hcontent := ihC p0 hp0d
          have hne1 : ¬((m0, ty0) = (p0.1, "income")) := by
            intro he
            exact hc (congrArg Prod.fst he).symm
          have hne2 : ¬((m0, ty0) = (p0.1, "expense")) := by
            intro he
            exact hc (congrArg Prod.fst he).symm
          simp [kApp, hne1, hne2, hcontent]
        · have hp0eq : p0 = (m0, TrendRecord.mk m0 0 0) := by simpa using hp0new
          subst hp0eq
          rw [if_pos rfl] at hpe
          subst hpe
          by_cases hty : ty0 = "income"
          · subst hty
            simp [kApp, kZeroAll, setTypeField]
          · by_cases hty2 : ty0 = "expense"
            · subst hty2
              simp [kApp, kZeroAll, setTypeField]
            · simp [kApp, kZeroAll, setTypeField, hty, hty2]

/-! ### Claim C3 -/

theorem mem_monthsOf_groupSum (fts : List Transaction) (m : String) :
    m ∈ (groupSum (fun t => (monthOf t, t.type)) fts).map (fun g => g.1.1)
      ↔ m ∈ fts.map monthOf := by
  unfold groupSum
  rw [List.map_map]
  simp [List.mem_map, List.mem_dedup]

/-- C3, amended with the `.to_list(100)` cursor bound of the source:
provided the user's range-filtered transactions span at most 100
`(month, type)` groups, `monthly_trend` has exactly one record per month
with at least one filtered transaction, sorted ascending by month
string, and each record's `income` and `expense` equal the sums of that
month's filtered income-type and expense-type amounts (0 when the type
is absent). -/
theorem claim_C3 (db : DB) (u s e : String)
    (hle : (monthlyGroups db.transactions u s e).length ≤ 100) :
    List.Pairwise (fun a b : TrendRecord => strLe a.month b.month)
        ((get_analytics db u s e).monthly_trend)
    ∧ ((get_analytics db u s e).monthly_trend.map TrendRecord.month).Nodup
    ∧ (∀ m : String, m ∈ (get_analytics db u s e).monthly_trend.map TrendRecord.month ↔
        m ∈ (db.transactions.filter (analyticsMatchAll u s e)).map monthOf)
    ∧ (∀ r ∈ (get_analytics db u s e).monthly_trend,
        r.income = sumAmounts ((db.transactions.filter (analyticsMatchAll u s e)).filter
          (fun t => decide (monthOf t = r.month) && decide (t.type = "income")))
        ∧ r.expense = sumAmounts ((db.transactions.filter (analyticsMatchAll u s e)).filter
          (fun t => decide (monthOf t = r.month) && decide (t.type = "expense")))) := by
  have hperm1 : List.Perm (List.insertionSort byMonthKeyAsc (monthlyGroups db.transactions u s e))
      (monthlyGroups db.transactions u s e) := List.perm_insertionSort _ _
  have hlen : (List.insertionSort byMonthKeyAsc (monthlyGroups db.transactions u s e)).length
      ≤ 100 := by
    rw [hperm1.length_eq]
    exact hle
  have htake : (List.insertionSort byMonthKeyAsc (monthlyGroups db.transactions u s e)).take 100
      = List.insertionSort byMonthKeyAsc (monthlyGroups db.transactions u s e) :=
    List.take_of_length_le hlen
  set gs1 := List.insertionSort byMonthKeyAsc (monthlyGroups db.transactions u s e) with hgs1
  have hnodup1 : (gs1.map Prod.fst).Nodup :=
    ((hperm1.map Prod.fst).nodup_iff).mpr
      (groupSum_keys_nodup (fun t => (monthOf t, t.type))
        (db.transactions.filter (analyticsMatchAll u s e)))
  obtain ⟨specN, specM, specC⟩ := pivot_foldl_spec gs1 hnodup1
  have htrend : (get_analytics db u s e).monthly_trend
      = List.insertionSort byMonthAsc (pivotMonthly gs1) := by
    show monthly_trend db.transactions u s e = _
    unfold monthly_trend
    rw [← hgs1, htake]
  have hpermT : List.Perm (List.insertionSort byMonthAsc (pivotMonthly gs1))
      (pivotMonthly gs1) := List.perm_insertionSort _ _
  have hpivotMonths : (pivotMonthly gs1).map TrendRecord.month
      = (gs1.foldl pivotStep []).map Prod.fst := by
    unfold pivotMonthly
    rw [List.map_map]
    apply List.map_congr_left
    intro p hp
    show p.2.month = p.1
    rw [specC p hp]
  have hkey : ∀ m ty : String, keyTotal gs1 (m, ty)
      = sumAmounts ((db.transactions.filter (analyticsMatchAll u s e)).filter
          (fun t => decide (monthOf t = m) && decide (t.type = ty))) := by
    intro m ty
    rw [keyTotal_perm hperm1 (m, ty)]
    have h1 : keyTotal (monthlyGroups db.transactions u s e) (m, ty)
        = sumAmounts ((db.transactions.filter (analyticsMatchAll u s e)).filter
            (fun t => decide ((monthOf t, t.type) = (m, ty)))) :=
      keyTotal_groupSum (fun t => (monthOf t, t.type)) _ (m, ty)
    rw [h1]
    unfold sumAmounts
    congr 1
    apply congrArg
    apply List.filter_congr
    intro t _
    simp [Prod.mk.injEq]
  refine ⟨?_, ?_, ?_, ?_⟩
  · rw [htrend]
    exact (List.sorted_insertionSort byMonthAsc _).imp (fun h => h)
  · rw [htrend]
    rw [(hpermT.map TrendRecord.month).nodup_iff, hpivotMonths]
    exact specN
  · intro m
    rw [htrend, (hpermT.map TrendRecord.month).mem_iff, hpivotMonths, specM m,
      (hperm1.map (fun g => g.1.1)).mem_iff]
    exact mem_monthsOf_groupSum _ m
  · intro r hr
    rw [htrend] at hr
    have hr1 : r ∈ pivotMonthly gs1 := (List.mem_insertionSort byMonthAsc).mp hr
    obtain ⟨p, hp, hpe⟩ := List.mem_map.mp hr1
    subst hpe
    rw [specC p hp]
    exact ⟨hkey p.1 "income", hkey p.1 "expense"⟩

/-- Witness store for C3: the scenario ledger spans far fewer than 100
month/type groups. -/
theorem claim_C3_witness :
    List.Pairwise (fun a b : TrendRecord => strLe a.month b.month)
      ((get_analytics (DB.mk exampleLedger []) "user" "2024-01" "2024-12").monthly_trend)
    ∧ (∀ m : String,
        m ∈ ((get_analytics (DB.mk exampleLedger []) "user" "2024-01" "2024-12").monthly_trend.map
            TrendRecord.month) ↔
        m ∈ ((DB.mk exampleLedger []).transactions.filter
            (analyticsMatchAll "user" "2024-01" "2024-12")).map monthOf) :=
  ⟨(claim_C3 (DB.mk exampleLedger []) "user" "2024-01" "2024-12" (by decide)).1,
   (claim_C3 (DB.mk exampleLedger []) "user" "2024-01" "2024-12" (by decide)).2.2.1⟩

/-! ### Counterexample to C3 as originally stated -/

/-- Four ASCII digits of a year below 10000. -/
def yearStr (y : Nat) : String :=
  String.mk [Char.ofNat (48 + y / 1000 % 10), Char.ofNat (48 + y / 100 % 10),
    Char.ofNat (48 + y / 10 % 10), Char.ofNat (48 + y % 10)]

/-- One expense in January of year `2000 + i`. -/
def c3Tx (i : Nat) : Transaction :=
  ⟨"t", "u", "expense", 1, "Misc", none, yearStr (2000 + i) ++ "-01-15", none, "c"⟩

/-- A ledger with one expense in each of 101 distinct months. -/
def c3Ledger : List Transaction := (List.range 101).map c3Tx

def dbC3 : DB := DB.mk c3Ledger []

set_option maxRecDepth 8000 in
/-- Counterexample to C3 as stated: over the range 2000-01 .. 2100-01 the
ledger `c3Ledger` has a filtered transaction in month `"2100-01"`, yet
`monthly_trend` carries no record for that month, because the source
reads at most 100 `(month, type)` group rows (`.to_list(100)`). -/
theorem claim_C3_counterexample :
    ("2100-01" ∈ (dbC3.transactions.filter
        (analyticsMatchAll "u" "2000-01" "2100-01")).map monthOf)
    ∧ "2100-01" ∉ ((get_analytics dbC3 "u" "2000-01" "2100-01").monthly_trend.map
        TrendRecord.month) := by
  constructor
  · decide
  · decide

/-! ### Mutating endpoints (server.py lines 277-359 and 363-436) -/

/-- Request body of `POST /transactions`. -/
structure TransactionCreate where
  type : String
  amount : ℚ
  category : String
  description : Option String
  date : String
  notes : Option String
deriving DecidableEq

/-- Request body of `PUT /transactions/{id}`: absent fields are `none`. -/
structure TransactionUpdate where
  type : Option String
  amount : Option ℚ
  category : Option String
  description : Option String
  date : Option String
  notes : Option String
deriving DecidableEq

/-- Request body of `POST /budgets`. -/
structure BudgetCreate where
  category : String
  amount : ℚ
  month : String
deriving DecidableEq

/-- Request body of `PUT /budgets/{id}`: absent fields are `none`. -/
structure BudgetUpdate where
  amount : Option ℚ
  month : Option String
deriving DecidableEq

/-- Response of the budget endpoints: the stored fields plus derived `spent`. -/
structure BudgetResponse where
  id : String
  user_id : String
  category : String
  amount : ℚ
  month : String
  spent : ℚ
deriving DecidableEq

/-- `update_one`: MongoDB updates the first document matching the filter. -/
def updateFirst {α : Type} (l : List α) (p : α → Bool) (f : α → α) : List α :=
  match l with
  | [] => []
  | a :: as => if p a then f a :: as else a :: updateFirst as p f

/-- `delete_one`: MongoDB deletes the first document matching the filter. -/
def deleteFirst {α : Type} (l : List α) (p : α → Bool) : List α :=
  match l with
  | [] => []
  | a :: as => if p a then as else a :: deleteFirst as p

/-- `create_transaction`: insert the document built from the request, a
fresh uuid and the current timestamp (both passed as parameters here). -/
def create_transaction (db : DB) (u : String) (data : TransactionCreate)
    (transaction_id created_at : String) : Except String Transaction × DB :=
  let t : Transaction := ⟨transaction_id, u, data.type, data.amount, data.category,
    data.description, data.date, data.notes, created_at⟩
  (Except.ok t, DB.mk (db.transactions ++ [t]) db.budgets)

/-- The `update_data` dictionary is empty exactly when every field is `None`. -/
def transactionUpdateEmpty (d : TransactionUpdate) : Bool :=
  d.type.isNone && d.amount.isNone && d.category.isNone && d.description.isNone
    && d.date.isNone && d.notes.isNone

/-- `{'$set': update_data}`: overwrite exactly the present fields. -/
def applyTransactionUpdate (d : TransactionUpdate) (t : Transaction) : Transaction :=
  { t with
    type := d.type.getD t.type
    amount := d.amount.getD t.amount
    category := d.category.getD t.category
    description := if d.description.isSome then d.description else t.description
    date := d.date.getD t.date
    notes := if d.notes.isSome then d.notes else t.notes }

/-- `update_transaction`: reject an empty update, apply `$set` to the
first document matching `{id, user_id}`, 404 when nothing matched, then
re-read the document by `{id}` alone for the response. -/
def update_transaction (db : DB) (u transaction_id : String) (data : TransactionUpdate) :
    Except String Transaction × DB :=
  if transactionUpdateEmpty data then
    (Except.error "No data to update", db)
  else
    let matched := db.transactions.any (fun t =>
      decide (t.id = transaction_id) && decide (t.user_id = u))
    let db' := DB.mk (updateFirst db.transactions
      (fun t => decide (t.id = transaction_id) && decide (t.user_id = u))
      (applyTransactionUpdate data)) db.budgets
    if matched then
      match db'.transactions.find? (fun t => decide (t.id = transaction_id)) with
      | some t => (Except.ok t, db')
      | none => (Except.error "Transaction not found", db')
    else
      (Except.error "Transaction not found", db')

/-- `delete_transaction`: delete the first `{id, user_id}` match, 404
when nothing was deleted. -/
def delete_transaction (db : DB) (u transaction_id : String) : Except String String × DB :=
  let matched := db.transactions.any (fun t =>
    decide (t.id = transaction_id) && decide (t.user_id = u))
  let db' := DB.mk (deleteFirst db.transactions
    (fun t => decide (t.id = transaction_id) && decide (t.user_id = u))) db.budgets
  if matched then (Except.ok "Transaction deleted", db')
  else (Except.error "Transaction not found", db')

/-- `create_budget`: pre-check for an existing `(user, category, month)`
budget, reject with 400 when found, otherwise insert and return the new
record with `spent = 0`. -/
def create_budget (db : DB) (u : String) (data : BudgetCreate) (budget_id : String) :
    Except String BudgetResponse × DB :=
  if db.budgets.any (fun b => decide (b.user_id = u) && decide (b.category = data.category)
      && decide (b.month = data.month)) then
    (Except.error "Budget already exists for this category/month", db)
  else
    (Except.ok ⟨budget_id, u, data.category, data.amount, data.month, 0⟩,
      DB.mk db.transactions
        (db.budgets ++ [Budget.mk budget_id u data.category data.amount data.month]))

def budgetUpdateEmpty (d : BudgetUpdate) : Bool := d.amount.isNone && d.month.isNone

def applyBudgetUpdate (d : BudgetUpdate) (b : Budget) : Budget :=
  { b with amount := d.amount.getD b.amount, month := d.month.getD b.month }

/-- `update_budget`: reject an empty update, apply `$set` to the first
`{id, user_id}` match, 404 when nothing matched, then re-read by `{id}`
and attach the derived `spent`. -/
def update_budget (db : DB) (u budget_id : String) (data : BudgetUpdate) :
    Except String BudgetResponse × DB :=
  if budgetUpdateEmpty data then
    (Except.error "No data to update", db)
  else
    let matched := db.budgets.any (fun b => decide (b.id = budget_id) && decide (b.user_id = u))
    let db' := DB.mk db.transactions (updateFirst db.budgets
      (fun b => decide (b.id = budget_id) && decide (b.user_id = u)) (applyBudgetUpdate data))
    if matched then
      match db'.budgets.find? (fun b => decide (b.id = budget_id)) with
      | some b => (Except.ok ⟨b.id, b.user_id, b.category, b.amount, b.month,
          calculate_spent db'.transactions u b.category b.month⟩, db')
      | none => (Except.error "Budget not found", db')
    else
      (Except.error "Budget not found", db')

/-- `delete_budget`: delete the first `{id, user_id}` match, 404 when
nothing was deleted. -/
def delete_budget (db : DB) (u budget_id : String) : Except String String × DB :=
  let matched := db.budgets.any (fun b => decide (b.id = budget_id) && decide (b.user_id = u))
  let db' := DB.mk db.transactions
    (deleteFirst db.budgets (fun b => decide (b.id = budget_id) && decide (b.user_id = u)))
  if matched then (Except.ok "Budget deleted", db') else (Except.error "Budget not found", db')

/-- `calculate_spent` as a handler step: its only storage operation is a
read-only aggregate, so the store is returned unchanged. -/
def calculate_spent_run (db : DB) (u c m : String) : ℚ × DB :=
  (calculate_spent db.transactions u c m, db)

/-- `get_analytics` as a handler step: its two storage operations are
read-only aggregates, so the store is returned unchanged. -/
def get_analytics_run (db : DB) (u s e : String) : AnalyticsResponse × DB :=
  (get_analytics db u s e, db)

/-! ### Claim C7 -/

/-- C7: `calculate_spent` and `get_analytics` leave the store unchanged,
and running either twice in sequence with no intervening mutation yields
identical outputs: both are pure functions of the stored state. -/
theorem claim_C7 (db : DB) (u c m s e : String) :
    (calculate_spent_run db u c m).2 = db
    ∧ (get_analytics_run db u s e).2 = db
    ∧ (calculate_spent_run (calculate_spent_run db u c m).2 u c m).1
        = (calculate_spent_run db u c m).1
    ∧ (get_analytics_run (get_analytics_run db u s e).2 u s e).1
        = (get_analytics_run db u s e).1
    ∧ (∀ db2 : DB, db2 = db →
        calculate_spent_run db2 u c m = calculate_spent_run db u c m
        ∧ get_analytics_run db2 u s e = get_analytics_run db u s e) := by
  refine ⟨rfl, rfl, rfl, rfl, ?_⟩
  intro db2 h
  rw [h]
  exact ⟨rfl, rfl⟩

/-! ### Claim C8 -/

theorem filter_and_left {α : Type} {q p : α → Bool} {l1 l2 : List α}
    (h : l1.filter q = l2.filter q) :
    l1.filter (fun a => q a && p a) = l2.filter (fun a => q a && p a) := by
  have e1 : ∀ l : List α, l.filter (fun a => q a && p a) = (l.filter q).filter p := by
    intro l
    rw [List.filter_filter]
    apply List.filter_congr
    intro a _
    exact Bool.and_comm _ _
  rw [e1, e1, h]

/-- C8: any two stores that agree on user `u`'s transactions and budgets
produce identical `calculate_spent`, `get_analytics` and `get_dashboard`
results for `u` — the aggregations never read other users' records. -/
theorem claim_C8 (db1 db2 : DB) (u c m s e mo : String)
    (ht : db1.transactions.filter (fun t => decide (t.user_id = u))
      = db2.transactions.filter (fun t => decide (t.user_id = u)))
    (hb : db1.budgets.filter (fun b => decide (b.user_id = u))
      = db2.budgets.filter (fun b => decide (b.user_id = u))) :
    calculate_spent db1.transactions u c m = calculate_spent db2.transactions u c m
    ∧ get_analytics db1 u s e = get_analytics db2 u s e
    ∧ get_dashboard db1 u mo = get_dashboard db2 u mo := by
  have huser : ∀ p : Transaction → Bool,
      db1.transactions.filter (fun t => decide (t.user_id = u) && p t)
        = db2.transactions.filter (fun t => decide (t.user_id = u) && p t) :=
    fun p => filter_and_left ht
  have hshape : ∀ (ts : List Transaction) (p q2 : Transaction → Bool),
      ts.filter (fun t => decide (t.user_id = u) && p t && q2 t)
        = ts.filter (fun t => decide (t.user_id = u) && (p t && q2 t)) := by
    intro ts p q2
    apply List.filter_congr
    intro t _
    rw [Bool.and_assoc]
  refine ⟨?_, ?_, ?_⟩
  · unfold calculate_spent sumAmounts
    have h1 : ∀ ts : List Transaction, ts.filter (spentMatches u c m)
        = ts.filter (fun t => decide (t.user_id = u)
            && (decide (t.category = c) && decide (t.type = "expense")
              && strStartsWith t.date m)) := by
      intro ts
      apply List.filter_congr
      intro t _
      simp [spentMatches, Bool.and_assoc]
    rw [h1, h1, huser]
  · have hfe : db1.transactions.filter (analyticsMatchExpense u s e)
        = db2.transactions.filter (analyticsMatchExpense u s e) := by
      have h1 : ∀ ts : List Transaction, ts.filter (analyticsMatchExpense u s e)
          = ts.filter (fun t => decide (t.user_id = u)
              && (decide (t.type = "expense") && analyticsDateInRange s e t.date)) := by
        intro ts
        apply List.filter_congr
        intro t _
        simp [analyticsMatchExpense, Bool.and_assoc]
      rw [h1, h1, huser]
    have hfa : db1.transactions.filter (analyticsMatchAll u s e)
        = db2.transactions.filter (analyticsMatchAll u s e) := by
      have h1 : ∀ ts : List Transaction, ts.filter (analyticsMatchAll u s e)
          = ts.filter (fun t => decide (t.user_id = u) && analyticsDateInRange s e t.date) := by
        intro ts
        apply List.filter_congr
        intro t _
        simp [analyticsMatchAll]
      rw [h1, h1, huser]
    unfold get_analytics category_breakdown monthly_trend monthlyGroups
    rw [hfe, hfa]
  · have h1 : db1.transactions.filter (fun t => decide (t.user_id = u)
        && decide (t.type = "income") && strStartsWith t.date mo)
        = db2.transactions.filter (fun t => decide (t.user_id = u)
          && decide (t.type = "income") && strStartsWith t.date mo) := by
      rw [hshape, hshape]
      exact huser _
    have h2 : db1.transactions.filter (fun t => decide (t.user_id = u)
        && decide (t.type = "expense") && strStartsWith t.date mo)
        = db2.transactions.filter (fun t => decide (t.user_id = u)
          && decide (t.type = "expense") && strStartsWith t.date mo) := by
      rw [hshape, hshape]
      exact huser _
    have h3 : db1.budgets.filter (fun b => decide (b.user_id = u) && decide (b.month = mo))
        = db2.budgets.filter (fun b => decide (b.user_id = u) && decide (b.month = mo)) :=
      filter_and_left hb
    unfold get_dashboard
    rw [h1, h2, h3, ht]

/-- A transaction belonging to a different user, used to probe isolation. -/
def intruderTx : Transaction :=
  ⟨"t9", "intruder", "expense", 999, "Food", none, "2024-03-07", none, "c9"⟩

def dbWithIntruder : DB :=
  DB.mk (exampleLedger ++ [intruderTx]) [Budget.mk "b9" "intruder" "Food" 999 "2024-03"]

def dbOnlyUser : DB := DB.mk exampleLedger []

/-- Witness for C8: two stores differing only in another user's records
have equal user-filtered collections and hence identical aggregation
results for `"user"`. -/
theorem claim_C8_witness :
    calculate_spent dbWithIntruder.transactions "user" "Food" "2024-03"
        = calculate_spent dbOnlyUser.transactions "user" "Food" "2024-03"
    ∧ get_analytics dbWithIntruder "user" "2024-01" "2024-12"
        = get_analytics dbOnlyUser "user" "2024-01" "2024-12"
    ∧ get_dashboard dbWithIntruder "user" "2024-03"
        = get_dashboard dbOnlyUser "user" "2024-03" :=
  claim_C8 dbWithIntruder dbOnlyUser "user" "Food" "2024-03" "2024-01" "2024-12" "2024-03"
    (by decide) (by decide)

/-! ### Claim C9 -/

/-- The key whose uniqueness §3 of the spec asserts. -/
def budgetTriple (b : Budget) : String × String × String := (b.user_id, b.category, b.month)

/-- At most one budget per `(user_id, category, month)` triple. -/
def UniqueBudgets (bs : List Budget) : Prop := (bs.map budgetTriple).Nodup

instance (bs : List Budget) : Decidable (UniqueBudgets bs) :=
  inferInstanceAs (Decidable ((bs.map budgetTriple).Nodup))

/-- One sequential API call that can touch the stored collections: the
six transaction/budget mutation endpoints (the remaining endpoints of
the source never write `db.transactions` or `db.budgets`). -/
inductive ApiStep : DB → DB → Prop where
  | createTxn (db : DB) (u : String) (data : TransactionCreate) (tid ca : String) :
      ApiStep db (create_transaction db u data tid ca).2
  | updateTxn (db : DB) (u tid : String) (d : TransactionUpdate) :
      ApiStep db (update_transaction db u tid d).2
  | deleteTxn (db : DB) (u tid : String) : ApiStep db (delete_transaction db u tid).2
  | createBudget (db : DB) (u : String) (data : BudgetCreate) (bid : String) :
      ApiStep db (create_budget db u data bid).2
  | updateBudget (db : DB) (u bid : String) (d : BudgetUpdate) :
      ApiStep db (update_budget db u bid d).2
  | deleteBudget (db : DB) (u bid : String) : ApiStep db (delete_budget db u bid).2

def emptyDB : DB := DB.mk [] []

/-- Stores reachable from the empty store by sequential API calls. -/
def Reachable (db : DB) : Prop := Relation.ReflTransGen ApiStep emptyDB db

/-- The same steps, except budget updates may not modify `month`. -/
inductive SafeApiStep : DB → DB → Prop where
  | createTxn (db : DB) (u : String) (data : TransactionCreate) (tid ca : String) :
      SafeApiStep db (create_transaction db u data tid ca).2
  | updateTxn (db : DB) (u tid : String) (d : TransactionUpdate) :
      SafeApiStep db (update_transaction db u tid d).2
  | deleteTxn (db : DB) (u tid : String) : SafeApiStep db (delete_transaction db u tid).2
  | createBudget (db : DB) (u : String) (data : BudgetCreate) (bid : String) :
      SafeApiStep db (create_budget db u data bid).2
  | updateBudget (db : DB) (u bid : String) (d : BudgetUpdate) (hm : d.month = none) :
      SafeApiStep db (update_budget db u bid d).2
  | deleteBudget (db : DB) (u bid : String) : SafeApiStep db (delete_budget db u bid).2

def ReachableNoMonthEdit (db : DB) : Prop := Relation.ReflTransGen SafeApiStep emptyDB db

theorem create_transaction_budgets (db : DB) (u : String) (data : TransactionCreate)
    (tid ca : String) : (create_transaction db u data tid ca).2.budgets = db.budgets := rfl

theorem update_transaction_budgets (db : DB) (u tid : String) (d : TransactionUpdate) :
    (update_transaction db u tid d).2.budgets = db.budgets := by
  unfold update_transaction
  dsimp only
  split
  · rfl
  · split
    · split <;> rfl
    · rfl

theorem delete_transaction_budgets (db : DB) (u tid : String) :
    (delete_transaction db u tid).2.budgets = db.budgets := by
  unfold delete_transaction
  dsimp only
  split <;> rfl

theorem updateFirst_map {α β : Type} (g : α → β) (f : α → α) (p : α → Bool)
    (h : ∀ a, g (f a) = g a) : ∀ l : List α, (updateFirst l p f).map g = l.map g := by
  intro l
  induction l with
  | nil => rfl
  | cons a as ih =>
    unfold updateFirst
    by_cases hp : p a = true
    · simp [hp, h a]
    · simp [hp, ih]

theorem deleteFirst_sublist {α : Type} (p : α → Bool) :
    ∀ l : List α, List.Sublist (deleteFirst l p) l := by
  intro l
  induction l with
  | nil => exact List.Sublist.refl _
  | cons a as ih =>
    unfold deleteFirst
    by_cases hp : p a = true
    · simp only [hp, if_true]
      exact List.sublist_cons_self a as
    · simp only [hp, if_false]
      exact List.Sublist.cons₂ a ih

theorem safeStep_preserves_unique {db db' : DB} (h : SafeApiStep db db')
    (hu : UniqueBudgets db.budgets) : UniqueBudgets db'.budgets := by
  cases h with
  | createTxn u data tid ca => exact hu
  | updateTxn u tid d =>
    unfold UniqueBudgets
    rw [update_transaction_budgets]
    exact hu
  | deleteTxn u tid =>
    unfold UniqueBudgets
    rw [delete_transaction_budgets]
    exact hu
  | createBudget u data bid =>
    unfold UniqueBudgets at hu ⊢
    unfold create_budget
    by_cases hdup : (db.budgets.any fun b => decide (b.user_id = u)
        && decide (b.category = data.category) && decide (b.month = data.month)) = true
    · rw [if_pos hdup]
      exact hu
    · rw [if_neg hdup]
      show ((db.budgets ++ [Budget.mk bid u data.category data.amount data.month]).map
        budgetTriple).Nodup
      rw [List.map_append]
      refine List.nodup_append.mpr ⟨hu, by simp, ?_⟩
      intro x hx hx2
      have hx2e : x = budgetTriple (Budget.mk bid u data.category data.amount data.month) := by
        simpa using hx2
      apply hdup
      rw [List.any_eq_true]
      obtain ⟨b, hb, hbe⟩ := List.mem_map.mp hx
      refine ⟨b, hb, ?_⟩
      rw [hx2e] at hbe
      have h1 : b.user_id = u := congrArg (fun p => p.1) hbe
      have h2 : b.category = data.category := congrArg (fun p => p.2.1) hbe
      have h3 : b.month = data.month := congrArg (fun p => p.2.2) hbe
      simp [h1, h2, h3]
  | updateBudget u bid d hm =>
    unfold UniqueBudgets at hu ⊢
    have htriple : ∀ b : Budget, budgetTriple (applyBudgetUpdate d b) = budgetTriple b := by
      intro b
      unfold applyBudgetUpdate budgetTriple
      rw [hm]
      rfl
    unfold update_budget
    dsimp only
    split
    · exact hu
    · split
      · split
        · rw [updateFirst_map budgetTriple (applyBudgetUpdate d) _ htriple]
          exact hu
        · rw [updateFirst_map budgetTriple (applyBudgetUpdate d) _ htriple]
          exact hu
      · rw [updateFirst_map budgetTriple (applyBudgetUpdate d) _ htriple]
        exact hu
  | deleteBudget u bid =>
    unfold UniqueBudgets at hu ⊢
    unfold delete_budget
    dsimp only
    split <;> exact hu.sublist ((deleteFirst_sublist _ _).map budgetTriple)

theorem reachableNoMonthEdit_unique : ∀ db : DB, ReachableNoMonthEdit db →
    UniqueBudgets db.budgets := by
  intro db h
  induction h with
  | refl => exact List.nodup_nil
  | tail hsteps hstep ih => exact safeStep_preserves_unique hstep ih

/-- C9, amended: `create_budget` rejects a duplicate `(user, category,
month)` triple without inserting, otherwise inserts exactly one record
and returns it with `spent = 0`; and every store reachable by sequential
API calls in which budget updates leave `month` unchanged satisfies the
uniqueness invariant.  (The unrestricted claim fails:
`claim_C9_counterexample` reaches a duplicate triple through a
month-changing `update_budget`, which performs no uniqueness check.) -/
theorem claim_C9 (db : DB) (u : String) (data : BudgetCreate) (bid : String) :
    ((∃ b ∈ db.budgets, b.user_id = u ∧ b.category = data.category ∧ b.month = data.month) →
      create_budget db u data bid
        = (Except.error "Budget already exists for this category/month", db))
    ∧ ((¬ ∃ b ∈ db.budgets, b.user_id = u ∧ b.category = data.category
          ∧ b.month = data.month) →
      (create_budget db u data bid).1
          = Except.ok (BudgetResponse.mk bid u data.category data.amount data.month 0)
        ∧ (create_budget db u data bid).2
          = DB.mk db.transactions
              (db.budgets ++ [Budget.mk bid u data.category data.amount data.month]))
    ∧ (∀ db' : DB, ReachableNoMonthEdit db' → UniqueBudgets db'.budgets) := by
  have hiff : (db.budgets.any (fun b => decide (b.user_id = u)
        && decide (b.category = data.category) && decide (b.month = data.month)) = true)
      ↔ (∃ b ∈ db.budgets, b.user_id = u ∧ b.category = data.category
          ∧ b.month = data.month) := by
    simp [List.any_eq_true, and_assoc]
  refine ⟨?_, ?_, ?_⟩
  · intro hex
    unfold create_budget
    rw [if_pos (hiff.mpr hex)]
  · intro hnex
    unfold create_budget
    rw [if_neg (fun hh => hnex (hiff.mp hh))]
    exact ⟨rfl, rfl⟩
  · intro db' hr
    exact reachableNoMonthEdit_unique db' hr

/-! ### Counterexample to C9 as originally stated -/

def cbData1 : BudgetCreate := ⟨"Food", 100, "2024-01"⟩

def cbData2 : BudgetCreate := ⟨"Food", 100, "2024-02"⟩

def dbStep1 : DB := (create_budget emptyDB "u" cbData1 "b1").2

def dbStep2 : DB := (create_budget dbStep1 "u" cbData2 "b2").2

def dbStep3 : DB := (update_budget dbStep2 "u" "b2" (BudgetUpdate.mk none (some "2024-01"))).2

/-- Counterexample to C9 as stated: a sequential trace of two creations
followed by an `update_budget` that changes the second budget's month
reaches a store holding two budgets with the same `(user, category,
month)` triple — the uniqueness pre-check exists only in
`create_budget`. -/
theorem claim_C9_counterexample : Reachable dbStep3 ∧ ¬ UniqueBudgets dbStep3.budgets := by
  constructor
  · have s1 : ApiStep emptyDB dbStep1 := ApiStep.createBudget emptyDB "u" cbData1 "b1"
    have s2 : ApiStep dbStep1 dbStep2 := ApiStep.createBudget dbStep1 "u" cbData2 "b2"
    have s3 : ApiStep dbStep2 dbStep3 :=
      ApiStep.updateBudget dbStep2 "u" "b2" (BudgetUpdate.mk none (some "2024-01"))
    exact Relation.ReflTransGen.tail
      (Relation.ReflTransGen.tail (Relation.ReflTransGen.single s1) s2) s3
  · decide

/-- Witness for C9: the duplicate rejection, the successful insertion,
and the invariant at a store reached by one safe creation step. -/
theorem claim_C9_witness :
    create_budget dbStep1 "u" cbData1 "b9"
        = (Except.error "Budget already exists for this category/month", dbStep1)
    ∧ (create_budget emptyDB "u" cbData1 "b1").1
        = Except.ok (BudgetResponse.mk "b1" "u" "Food" 100 "2024-01" 0)
    ∧ UniqueBudgets dbStep1.budgets :=
  ⟨(claim_C9 dbStep1 "u" cbData1 "b9").1 (by decide),
   ((claim_C9 emptyDB "u" cbData1 "b1").2.1 (by decide)).1,
   (claim_C9 emptyDB "u" cbData1 "b1").2.2 dbStep1
     (Relation.ReflTransGen.single (SafeApiStep.createBudget emptyDB "u" cbData1 "b1"))⟩

/-! ### Claim C10 -/

/-- C10: an update request in which every optional field is absent fails
with `No data to update` before any write, leaving the store — hence
every stored record including the target — unchanged, for both
`update_transaction` and `update_budget`. -/
theorem claim_C10 (db : DB) (u tid bid : String) (dt : TransactionUpdate) (dbu : BudgetUpdate)
    (h1 : dt.type = none) (h2 : dt.amount = none) (h3 : dt.category = none)
    (h4 : dt.description = none) (h5 : dt.date = none) (h6 : dt.notes = none)
    (h7 : dbu.amount = none) (h8 : dbu.month = none) :
    update_transaction db u tid dt = (Except.error "No data to update", db)
    ∧ update_budget db u bid dbu = (Except.error "No data to update", db) := by
  constructor
  · unfold update_transaction
    have he : transactionUpdateEmpty dt = true := by
      simp [transactionUpdateEmpty, h1, h2, h3, h4, h5, h6]
    rw [if_pos he]
  · unfold update_budget
    have he : budgetUpdateEmpty dbu = true := by
      simp [budgetUpdateEmpty, h7, h8]
    rw [if_pos he]

/-- Witness for C10: the all-`none` update bodies at a concrete store. -/
theorem claim_C10_witness :
    update_transaction dbNoBudget "u" "t1" (TransactionUpdate.mk none none none none none none)
        = (Except.error "No data to update", dbNoBudget)
    ∧ update_budget dbNoBudget "u" "b1" (BudgetUpdate.mk none none)
        = (Except.error "No data to update", dbNoBudget) :=
  claim_C10 dbNoBudget "u" "t1" "b1" (TransactionUpdate.mk none none none none none none)
    (BudgetUpdate.mk none none) rfl rfl rfl rfl rfl rfl rfl rfl
